import Mathlib

/-!
Verification development for the backup script in src/icloud-s3-backup.py.

The script prunes objects older than 90 days from an S3 bucket, builds a
tar archive of a local folder, uploads it, prints a summary and removes
the local archive.  We embed it shallowly:

- timestamps are seconds since the Unix epoch, as Int;
- an S3 listing is a list of pages, each page optionally carrying a
  Contents list (mirroring the "if Contents in page" check in the code);
- filesystem paths are lists of components (an absolute Unix path has ""
  as its first component, as in "/a/b" = ["", "a", "b"]);
- the orchestrator main, wrapped in the handle_errors decorator, is a
  function from an environment of injected stage failures to a run
  result recording which stages ran, the exit code and the output lines.
-/

/- ### Retention pruner: delete_old_backups (lines 53-75) -/

/-- One object of a bucket listing: the Key and LastModified fields used
by delete_old_backups.  lastModified is seconds since the epoch. -/
structure RemoteObject where
  key : String
  lastModified : Int
deriving DecidableEq

/-- Line 12: MAX_RETENTION_DAYS = 90. -/
def MAX_RETENTION_DAYS : Nat := 90

def secondsPerDay : Int := 86400

/-- Line 56: cutoff = datetime.datetime.now(timezone.utc) - timedelta(days=MAX_RETENTION_DAYS),
with datetimes modelled as seconds. -/
def cutoffTime (nowUtc : Int) : Int := nowUtc - (MAX_RETENTION_DAYS : Int) * secondsPerDay

/-- Lines 59-65: the to_delete list accumulated over all pages of the
paginated listing.  A page is some contents when the Contents key is
present and none otherwise; each present page contributes the keys of its
objects with LastModified strictly below the cutoff, in listing order. -/
def keysToDelete : List (Option (List RemoteObject)) → Int → List String
  | [], _ => []
  | none :: rest, cut => keysToDelete rest cut
  | some l :: rest, cut =>
      List.map (fun o => o.key)
        (List.filter (fun o => decide (o.lastModified < cut)) l)
      ++ keysToDelete rest cut

/-- All objects of the listing, in page order (pages without a Contents
key contribute nothing). -/
def allListed : List (Option (List RemoteObject)) → List RemoteObject
  | [] => []
  | none :: rest => allListed rest
  | some l :: rest => l ++ allListed rest

/-- Observable outcome of delete_old_backups: the keys passed to
s3_client.delete_object, in order, and whether the early-return branch
reporting "No old backups found for cleanup" was taken. -/
structure PruneResult where
  deleteCalls : List String
  reportedNoOld : Bool
deriving DecidableEq

/-- Lines 53-75: compute to_delete; if empty, report and return without
any delete call, otherwise call delete_object once per selected key. -/
def delete_old_backups (pages : List (Option (List RemoteObject))) (nowUtc : Int) :
    PruneResult :=
  let toDel := keysToDelete pages (cutoffTime nowUtc)
  if toDel.isEmpty then { deleteCalls := [], reportedNoOld := true }
  else { deleteCalls := toDel, reportedNoOld := false }

/-- Concrete three-page listing straddling the cutoff of a run at
nowUtc = 7776000 (so the cutoff is 0): a fresh object on the first page,
a page with no Contents, then an old object and an exactly-90-day-old
object on the last page. -/
def straddlePages : List (Option (List RemoteObject)) :=
  [some [⟨"fresh", 50⟩], none, some [⟨"old", -100⟩, ⟨"boundary", 0⟩]]

/- ### Error handling and orchestration: handle_errors (lines 14-23) and main (lines 26-39) -/

/-- Single-quote character, written out so the messages below can embed it. -/
def squote : String := String.mk [Char.ofNat 39]

/-- Line 20: the distinct marker prefixed to the message that handle_errors
prints when it catches an exception. -/
def ERROR_MARK : String := "🚨 Error: "

/-- Line 50: message of the exception raised when boto3 reports
ProfileNotFound for the given profile. -/
def profileNotFoundMsg (profile : String) : String :=
  "AWS profile " ++ squote ++ profile ++ squote ++ " not found"

/-- The six sequential stages of main, in program order (lines 34-39):
session initialization, then delete_old_backups, create_backup_archive,
upload_to_s3, print_summary and clear_tmp_files. -/
inductive Stage where
  | initSession
  | prune
  | build
  | upload
  | summary
  | cleanup
deriving DecidableEq

/-- Failure environment of one run: whether the profile resolves, and for
each later stage the message of the exception it raises, none meaning all
of that stage's external calls (S3, tarfile, os) succeed. -/
structure Env where
  profileValid : Bool
  profile : String
  pruneFails : Option String
  buildFails : Option String
  uploadFails : Option String
  summaryFails : Option String
  cleanupFails : Option String
deriving DecidableEq

/-- Observable outcome of one invocation of main under handle_errors.
stdoutErrorLine is the prefixed error line printed by click.secho in
handle_errors; click.secho writes to standard output because its err
parameter defaults to False.  stderrLines is what reaches the error
stream: raising click.Abort makes click print "Aborted!" there and exit
with status 1.  buildCompleted records that create_backup_archive
returned, cleanupSucceeded that clear_tmp_files removed the archive. -/
structure RunResult where
  executed : List Stage
  exitCode : Nat
  stdoutErrorLine : Option String
  stderrLines : List String
  summaryPrinted : Bool
  buildCompleted : Bool
  cleanupSucceeded : Bool
  listAttempted : Bool
  deleteAttempted : Bool
  uploadAttempted : Bool
deriving DecidableEq

/-- Result of a run whose listed stages began and whose last stage raised
msg: handle_errors prints the prefixed message to standard output and
raises click.Abort, which prints "Aborted!" to the error stream and makes
the process exit with status 1 (lines 14-23). -/
def abortedRun (executed : List Stage) (msg : String)
    (summaryP buildC listA delA upA : Bool) : RunResult :=
  { executed := executed, exitCode := 1,
    stdoutErrorLine := some (ERROR_MARK ++ msg),
    stderrLines := ["Aborted!"],
    summaryPrinted := summaryP, buildCompleted := buildC,
    cleanupSucceeded := false,
    listAttempted := listA, deleteAttempted := delA, uploadAttempted := upA }

/-- Lines 33-39 under the handle_errors decorator: initialize the session,
prune, build, upload, print the summary, then delete the local archive;
the first stage that raises hands control to handle_errors, and later
stages never run.  For the stage that raises, the attempted-flags of its
own calls are modelled as their values had it reached its last call;
claims rely on those flags only for stages that never began. -/
def mainRun (env : Env) (pages : List (Option (List RemoteObject))) (nowUtc : Int) :
    RunResult :=
  if env.profileValid = false then
    abortedRun [Stage.initSession] (profileNotFoundMsg env.profile)
      false false false false false
  else
    let delAtt := !(delete_old_backups pages nowUtc).deleteCalls.isEmpty
    match env.pruneFails with
    | some m => abortedRun [Stage.initSession, Stage.prune] m false false true delAtt false
    | none =>
      match env.buildFails with
      | some m => abortedRun [Stage.initSession, Stage.prune, Stage.build] m
          false false true delAtt false
      | none =>
        match env.uploadFails with
        | some m => abortedRun [Stage.initSession, Stage.prune, Stage.build, Stage.upload] m
            false true true delAtt true
        | none =>
          match env.summaryFails with
          | some m => abortedRun
              [Stage.initSession, Stage.prune, Stage.build, Stage.upload, Stage.summary] m
              false true true delAtt true
          | none =>
            match env.cleanupFails with
            | some m => abortedRun
                [Stage.initSession, Stage.prune, Stage.build, Stage.upload, Stage.summary,
                 Stage.cleanup] m true true true delAtt true
            | none =>
              { executed := [Stage.initSession, Stage.prune, Stage.build, Stage.upload,
                  Stage.summary, Stage.cleanup],
                exitCode := 0, stdoutErrorLine := none, stderrLines := [],
                summaryPrinted := true, buildCompleted := true, cleanupSucceeded := true,
                listAttempted := true, deleteAttempted := delAtt, uploadAttempted := true }

/-- The first stage of main that raises under env, with its message. -/
def firstFail (env : Env) : Option (Stage × String) :=
  if env.profileValid = false then
    some (Stage.initSession, profileNotFoundMsg env.profile)
  else
    match env.pruneFails with
    | some m => some (Stage.prune, m)
    | none =>
      match env.buildFails with
      | some m => some (Stage.build, m)
      | none =>
        match env.uploadFails with
        | some m => some (Stage.upload, m)
        | none =>
          match env.summaryFails with
          | some m => some (Stage.summary, m)
          | none =>
            match env.cleanupFails with
            | some m => some (Stage.cleanup, m)
            | none => none

/-- The stages of main up to and including s, in program order. -/
def stagesUpTo : Stage → List Stage
  | Stage.initSession => [Stage.initSession]
  | Stage.prune => [Stage.initSession, Stage.prune]
  | Stage.build => [Stage.initSession, Stage.prune, Stage.build]
  | Stage.upload => [Stage.initSession, Stage.prune, Stage.build, Stage.upload]
  | Stage.summary =>
      [Stage.initSession, Stage.prune, Stage.build, Stage.upload, Stage.summary]
  | Stage.cleanup =>
      [Stage.initSession, Stage.prune, Stage.build, Stage.upload, Stage.summary,
       Stage.cleanup]

/-- Whether a run failing at s has already printed the summary: only a
clear_tmp_files failure comes after print_summary. -/
def failSummaryP : Stage → Bool
  | Stage.cleanup => true
  | _ => false

/-- Whether a run failing at s has a completed local archive: true from
the upload stage on, since create_backup_archive returned. -/
def failBuildC : Stage → Bool
  | Stage.upload => true
  | Stage.summary => true
  | Stage.cleanup => true
  | _ => false

/-- Whether a run failing at s reached the paginated listing: every stage
after session initialization has. -/
def failListA : Stage → Bool
  | Stage.initSession => false
  | _ => true

/-- The run outcome when every stage succeeds. -/
def successRun (pages : List (Option (List RemoteObject))) (nowUtc : Int) : RunResult :=
  { executed := [Stage.initSession, Stage.prune, Stage.build, Stage.upload,
      Stage.summary, Stage.cleanup],
    exitCode := 0, stdoutErrorLine := none, stderrLines := [],
    summaryPrinted := true, buildCompleted := true, cleanupSucceeded := true,
    listAttempted := true,
    deleteAttempted := !(delete_old_backups pages nowUtc).deleteCalls.isEmpty,
    uploadAttempted := true }

/-- Environment of a fully successful run. -/
def allOkEnv : Env :=
  { profileValid := true, profile := "backup", pruneFails := none, buildFails := none,
    uploadFails := none, summaryFails := none, cleanupFails := none }

/-- Environment where only the deletion of the local archive fails. -/
def cleanupFailEnv : Env := { allOkEnv with cleanupFails := some "No such file or directory" }

/-- Environment where the upload raises and everything before succeeds. -/
def uploadFailEnv : Env := { allOkEnv with uploadFails := some "Connection reset" }

/-- Environment whose profile does not resolve. -/
def badProfileEnv : Env := { allOkEnv with profileValid := false, profile := "demo" }

/- ### Archive builder: create_backup_archive (lines 78-96) -/

/-- A directory tree: the contents of the source folder handed to
create_backup_archive. -/
inductive FSTree where
  | file (name : String)
  | dir (name : String) (entries : List FSTree)

mutual
/-- The (relative directory, filename) pairs that os.walk enumerates for
one entry sitting in the relative directory relDir of the walked root.
os.walk groups each directory's files into one triple before descending
into subdirectories; that grouping only permutes the enumeration and is
immaterial to the entry names, so files are listed here in tree order. -/
def walkTree (relDir : List String) : FSTree → List (List String × String)
  | FSTree.file n => [(relDir, n)]
  | FSTree.dir n es => walkForest (relDir ++ [n]) es

/-- All (relative directory, filename) pairs below relDir. -/
def walkForest (relDir : List String) : List FSTree → List (List String × String)
  | [] => []
  | t :: rest => walkTree relDir t ++ walkForest relDir rest
end

mutual
/-- Whether every file and directory name in the tree is a nonempty
string, as filesystem enumeration guarantees. -/
def namesNonempty : FSTree → Bool
  | FSTree.file n => decide (n ≠ "")
  | FSTree.dir n es => decide (n ≠ "") && namesNonemptyList es

/-- namesNonempty over a list of entries. -/
def namesNonemptyList : List FSTree → Bool
  | [] => true
  | t :: rest => namesNonempty t && namesNonemptyList rest
end

/-- Length of the longest shared leading run of components of two paths. -/
def sharedLeadLen : List String → List String → Nat
  | a :: as, b :: bs => if a = b then sharedLeadLen as bs + 1 else 0
  | _, _ => 0

/-- os.path.relpath on normalized component lists: strip the components
shared with start, then climb out of what remains of start with ".."
steps and descend into what remains of the path. -/
def relpathComponents (p start : List String) : List String :=
  List.replicate (start.length - sharedLeadLen p start) ".."
    ++ List.drop (sharedLeadLen p start) p

/-- Lines 88-92: the arcname of every file os.walk enumerates under
folder_path: full_path = os.path.join(root, file) with root the folder
joined with the file's relative directory, and
arcname = os.path.relpath(full_path, start=folder_path). -/
def create_backup_archive_entries (folder : List String) (entries : List FSTree) :
    List (List String) :=
  (walkForest [] entries).map
    (fun rf => relpathComponents (folder ++ rf.1 ++ [rf.2]) folder)

/-- Month names produced by strftime's directive B. -/
def monthNames : List String :=
  ["January", "February", "March", "April", "May", "June",
   "July", "August", "September", "October", "November", "December"]

/-- Decimal digit characters. -/
def digitChar : Nat → Char
  | 0 => '0'
  | 1 => '1'
  | 2 => '2'
  | 3 => '3'
  | 4 => '4'
  | 5 => '5'
  | 6 => '6'
  | 7 => '7'
  | 8 => '8'
  | _ => '9'

/-- Decimal digits of n, most significant first, with enough fuel. -/
def natDigitsAux : Nat → Nat → List Char
  | 0, _ => []
  | fuel + 1, n =>
    if n < 10 then [digitChar n]
    else natDigitsAux fuel (n / 10) ++ [digitChar (n % 10)]

/-- Decimal digits of n, most significant first. -/
def natDigits (n : Nat) : List Char := natDigitsAux (n + 1) n

/-- Decimal rendering of a year, as strftime's directive Y produces. -/
def natDecimal (n : Nat) : String := String.mk (natDigits n)

/-- Line 81: strftime of the months-and-years format on the local now. -/
def strftimeBY (month y : Nat) : String :=
  List.getD monthNames (month - 1) "" ++ "-" ++ natDecimal y

/-- What a tarfile.open file mode means for the written container. -/
structure TarWriteMode where
  compressed : Bool
  truncates : Bool
deriving DecidableEq

/-- Python tarfile.open write modes, per the tarfile documentation: "w"
opens for writing an uncompressed archive, truncating an existing file;
the gz, bz2 and xz variants write compressed archives; "x" creates
exclusively and fails instead of truncating when the file exists. -/
def tarfileWriteMode : String → Option TarWriteMode
  | "w" => some { compressed := false, truncates := true }
  | "w:gz" => some { compressed := true, truncates := true }
  | "w:bz2" => some { compressed := true, truncates := true }
  | "w:xz" => some { compressed := true, truncates := true }
  | "x" => some { compressed := false, truncates := false }
  | _ => none

/-- Result of create_backup_archive: the name of the container file it
opens (a bare filename, resolved against the current working directory),
the mode string passed to tarfile.open, and the entry names added. -/
structure ArchiveBuild where
  fileName : String
  tarMode : String
  entryNames : List (List String)
deriving DecidableEq

/-- Lines 78-96: name the archive from the local now's month and year
(line 81-82), open it with tarfile.open(archive_name, "w") (line 86) and
add every walked file under its arcname (lines 88-92). -/
def create_backup_archive (month y : Nat) (folder : List String)
    (entries : List FSTree) : ArchiveBuild :=
  { fileName := strftimeBY month y ++ ".tar",
    tarMode := "w",
    entryNames := create_backup_archive_entries folder entries }

/-- The files the build stage writes: the single container passed to the
one tarfile.open call of line 86. -/
def filesWritten (b : ArchiveBuild) : List String := [b.fileName]

/-- Concrete absolute source folder for witnesses. -/
def demoFolder : List String := ["", "home", "user", "photos"]

/-- Concrete source tree for witnesses: one top-level file and one file
inside a subdirectory. -/
def demoEntries : List FSTree :=
  [FSTree.file "a.jpg", FSTree.dir "sub" [FSTree.file "b.jpg"]]

/- ### Clocks: local naming vs UTC pruning (lines 56 and 81) -/

/-- One instant as seen by the two clock calls of the script: the UTC
reading used at line 56 and the zone offset that the timezone-naive
datetime.datetime.now() of line 81 adds to it. -/
structure Clock where
  utcSeconds : Int
  tzOffsetSeconds : Int
deriving DecidableEq

/-- The local clock reading, datetime.datetime.now(). -/
def localSeconds (c : Clock) : Int := c.utcSeconds + c.tzOffsetSeconds

/-- Civil (year, month, day) of a day count since 1970-01-01, by the
standard days-to-civil conversion for the proleptic Gregorian calendar. -/
def civilFromDays (z0 : Int) : Int × Nat × Nat :=
  let z := z0 + 719468
  let era : Int := z / 146097
  let doe : Nat := (z - era * 146097).toNat
  let yoe : Nat := (doe - doe / 1460 + doe / 36524 - doe / 146096) / 365
  let doy : Nat := doe - (365 * yoe + yoe / 4 - yoe / 100)
  let mp : Nat := (5 * doy + 2) / 153
  let d : Nat := doy - (153 * mp + 2) / 5 + 1
  let m : Nat := if mp < 10 then mp + 3 else mp - 9
  (era * 400 + (yoe : Int) + (if m ≤ 2 then 1 else 0), m, d)

/-- Month (1-12) of a timestamp in seconds since the epoch. -/
def monthOfSeconds (s : Int) : Nat := (civilFromDays (s / secondsPerDay)).2.1

/-- Year of a timestamp in seconds since the epoch. -/
def yearOfSeconds (s : Int) : Int := (civilFromDays (s / secondsPerDay)).1

/-- Line 81: the archive name's month comes from the local clock. -/
def runArchiveMonth (c : Clock) : Nat := monthOfSeconds (localSeconds c)

/-- Line 56: the pruning cutoff comes from the UTC clock. -/
def runCutoff (c : Clock) : Int := cutoffTime c.utcSeconds

theorem keysToDelete_eq (pages : List (Option (List RemoteObject))) (cut : Int) :
    keysToDelete pages cut
      = List.map (fun o => o.key)
          (List.filter (fun o => decide (o.lastModified < cut)) (allListed pages)) := by
  induction pages with
  | nil => rfl
  | cons page rest ih =>
    cases page with
    | none => simpa [keysToDelete, allListed] using ih
    | some l => simp [keysToDelete, allListed, List.filter_append, ih]

/-- Claim C1 (amended): across all pages of the paginated listing, a
successful pruning pass deletes exactly the objects whose lastModified is
strictly below now_utc minus 90 days and no object at or above that
cutoff; an object exactly 90 days old has lastModified equal to the
cutoff, falls on the greater-or-equal side of the strict comparison, and
is therefore retained, not deleted. -/
theorem C1_prune_exact (pages : List (Option (List RemoteObject))) (nowUtc : Int)
    (hkeys : List.Nodup (List.map (fun o => o.key) (allListed pages))) :
    keysToDelete pages (cutoffTime nowUtc)
      = List.map (fun o => o.key)
          (List.filter (fun o => decide (o.lastModified < cutoffTime nowUtc))
            (allListed pages))
    ∧ (∀ o ∈ allListed pages, o.lastModified < cutoffTime nowUtc →
        o.key ∈ keysToDelete pages (cutoffTime nowUtc))
    ∧ (∀ o ∈ allListed pages, cutoffTime nowUtc ≤ o.lastModified →
        o.key ∉ keysToDelete pages (cutoffTime nowUtc))
    ∧ (∀ o ∈ allListed pages, o.lastModified = cutoffTime nowUtc →
        o.key ∉ keysToDelete pages (cutoffTime nowUtc)) := by
  have hinj := List.inj_on_of_nodup_map hkeys
  have hfresh : ∀ o ∈ allListed pages, cutoffTime nowUtc ≤ o.lastModified →
      o.key ∉ keysToDelete pages (cutoffTime nowUtc) := by
    intro o ho hle hmem
    rw [keysToDelete_eq] at hmem
    rcases List.mem_map.mp hmem with ⟨o', ho', hkey⟩
    rcases List.mem_filter.mp ho' with ⟨ho'mem, ho'old⟩
    have : o' = o := hinj ho'mem ho hkey
    subst this
    exact absurd (of_decide_eq_true ho'old) (not_lt.mpr hle)
  refine ⟨keysToDelete_eq pages (cutoffTime nowUtc), ?_, hfresh, ?_⟩
  · intro o ho hold
    rw [keysToDelete_eq]
    exact List.mem_map.mpr
      ⟨o, List.mem_filter.mpr ⟨ho, decide_eq_true hold⟩, rfl⟩
  · intro o ho heq
    exact hfresh o ho (le_of_eq heq.symm)

theorem C1_prune_exact_witness :
    "old" ∈ keysToDelete straddlePages (cutoffTime 7776000)
    ∧ "fresh" ∉ keysToDelete straddlePages (cutoffTime 7776000)
    ∧ "boundary" ∉ keysToDelete straddlePages (cutoffTime 7776000) := by
  have h := C1_prune_exact straddlePages 7776000 (by decide)
  exact ⟨h.2.1 ⟨"old", -100⟩ (by decide) (by decide),
         h.2.2.1 ⟨"fresh", 50⟩ (by decide) (by decide),
         h.2.2.2 ⟨"boundary", 0⟩ (by decide) (by decide)⟩

/-- Claim C1, original boundary sentence, refuted: at nowUtc = 7776000
the cutoff is 0, and the object with lastModified = 0 is exactly 90 days
old; the claim says it is deleted, but it is not selected for deletion. -/
theorem C1_counterexample :
    "exact90" ∉ keysToDelete [some [⟨"exact90", 0⟩]] (cutoffTime 7776000) := by
  decide

/-- Claim C5: when no listed object is older than the cutoff (an empty
listing, pages without Contents, and all-fresh pages included), the
pruner performs zero delete calls and takes the zero-deletions reporting
branch. -/
theorem C5_all_fresh (pages : List (Option (List RemoteObject))) (nowUtc : Int)
    (h : ∀ o ∈ allListed pages, cutoffTime nowUtc ≤ o.lastModified) :
    (delete_old_backups pages nowUtc).deleteCalls = []
    ∧ (delete_old_backups pages nowUtc).reportedNoOld = true := by
  have hnil : keysToDelete pages (cutoffTime nowUtc) = [] := by
    rw [keysToDelete_eq]
    have hfil : List.filter (fun o => decide (o.lastModified < cutoffTime nowUtc))
        (allListed pages) = [] := by
      rw [List.filter_eq_nil_iff]
      intro o ho
      simp only [decide_eq_true_eq, not_lt]
      exact h o ho
    rw [hfil]
    rfl
  rw [delete_old_backups]
  simp [hnil]

theorem C5_all_fresh_witness :
    (delete_old_backups [none, some [⟨"a", 50⟩]] 7776000).deleteCalls = []
    ∧ (delete_old_backups [none, some [⟨"a", 50⟩]] 7776000).reportedNoOld = true :=
  C5_all_fresh [none, some [⟨"a", 50⟩]] 7776000 (by decide)

theorem mainRun_firstFail_some (env : Env) (pages : List (Option (List RemoteObject)))
    (nowUtc : Int) (s : Stage) (m : String) (h : firstFail env = some (s, m)) :
    mainRun env pages nowUtc
      = abortedRun (stagesUpTo s) m (failSummaryP s) (failBuildC s) (failListA s)
          (if s = Stage.initSession then false
           else !(delete_old_backups pages nowUtc).deleteCalls.isEmpty)
          (failBuildC s) := by
  unfold firstFail at h
  unfold mainRun
  cases hpv : env.profileValid with
  | false =>
    rw [hpv] at h
    simp only [Bool.false_eq_true, if_true, reduceIte, Option.some.injEq, Prod.mk.injEq] at h
    obtain ⟨hs, hm⟩ := h
    subst hs; subst hm
    rfl
  | true =>
    rw [hpv] at h
    simp only [Bool.true_eq_false, reduceIte] at h ⊢
    cases h1 : env.pruneFails with
    | some m1 =>
      rw [h1] at h
      simp only [Option.some.injEq, Prod.mk.injEq] at h
      obtain ⟨hs, hm⟩ := h
      subst hs; subst hm
      rfl
    | none =>
      rw [h1] at h
      cases h2 : env.buildFails with
      | some m2 =>
        rw [h2] at h
        simp only [Option.some.injEq, Prod.mk.injEq] at h
        obtain ⟨hs, hm⟩ := h
        subst hs; subst hm
        rfl
      | none =>
        rw [h2] at h
        cases h3 : env.uploadFails with
        | some m3 =>
          rw [h3] at h
          simp only [Option.some.injEq, Prod.mk.injEq] at h
          obtain ⟨hs, hm⟩ := h
          subst hs; subst hm
          rfl
        | none =>
          rw [h3] at h
          cases h4 : env.summaryFails with
          | some m4 =>
            rw [h4] at h
            simp only [Option.some.injEq, Prod.mk.injEq] at h
            obtain ⟨hs, hm⟩ := h
            subst hs; subst hm
            rfl
          | none =>
            rw [h4] at h
            cases h5 : env.cleanupFails with
            | some m5 =>
              rw [h5] at h
              simp only [Option.some.injEq, Prod.mk.injEq] at h
              obtain ⟨hs, hm⟩ := h
              subst hs; subst hm
              rfl
            | none =>
              rw [h5] at h
              exact absurd h (by simp)

theorem mainRun_firstFail_none (env : Env) (pages : List (Option (List RemoteObject)))
    (nowUtc : Int) (h : firstFail env = none) :
    mainRun env pages nowUtc = successRun pages nowUtc := by
  unfold firstFail at h
  unfold mainRun
  cases hpv : env.profileValid with
  | false =>
    rw [hpv] at h
    simp at h
  | true =>
    rw [hpv] at h
    simp only [Bool.true_eq_false, reduceIte] at h ⊢
    cases h1 : env.pruneFails with
    | some m1 => rw [h1] at h; simp at h
    | none =>
      rw [h1] at h
      cases h2 : env.buildFails with
      | some m2 => rw [h2] at h; simp at h
      | none =>
        rw [h2] at h
        cases h3 : env.uploadFails with
        | some m3 => rw [h3] at h; simp at h
        | none =>
          rw [h3] at h
          cases h4 : env.summaryFails with
          | some m4 => rw [h4] at h; simp at h
          | none =>
            rw [h4] at h
            cases h5 : env.cleanupFails with
            | some m5 => rw [h5] at h; simp at h
            | none => rfl

theorem firstFail_allOk (env : Env) (hp : env.profileValid = true)
    (h1 : env.pruneFails = none) (h2 : env.buildFails = none)
    (h3 : env.uploadFails = none) (h4 : env.summaryFails = none)
    (h5 : env.cleanupFails = none) : firstFail env = none := by
  unfold firstFail
  rw [hp, h1, h2, h3, h4, h5]
  rfl

/-- Claim C2, original ordering, refuted: on a fully successful run the
summary stage runs strictly before CLEANUP_LOCAL, so the summary is not
emitted last and not after the local archive has been deleted. -/
theorem C2_counterexample :
    List.indexOf Stage.summary (mainRun allOkEnv [] 0).executed
      < List.indexOf Stage.cleanup (mainRun allOkEnv [] 0).executed := by
  decide

/-- Claim C2 (amended): on a fully successful run the orchestrator
performs prune, then build, then upload, then emits the summary, and
deletes the local temporary archive last; the summary is emitted before
the local archive is deleted (print_summary re-stats the archive file,
which must still exist), and the run exits with status 0. -/
theorem C2_success_order (env : Env) (pages : List (Option (List RemoteObject)))
    (nowUtc : Int) (hp : env.profileValid = true) (h1 : env.pruneFails = none)
    (h2 : env.buildFails = none) (h3 : env.uploadFails = none)
    (h4 : env.summaryFails = none) (h5 : env.cleanupFails = none) :
    (mainRun env pages nowUtc).executed
      = [Stage.initSession, Stage.prune, Stage.build, Stage.upload, Stage.summary,
         Stage.cleanup]
    ∧ (mainRun env pages nowUtc).exitCode = 0
    ∧ (mainRun env pages nowUtc).summaryPrinted = true
    ∧ (mainRun env pages nowUtc).cleanupSucceeded = true := by
  rw [mainRun_firstFail_none env pages nowUtc
    (firstFail_allOk env hp h1 h2 h3 h4 h5)]
  exact ⟨rfl, rfl, rfl, rfl⟩

theorem C2_success_order_witness :
    (mainRun allOkEnv [] 0).executed
      = [Stage.initSession, Stage.prune, Stage.build, Stage.upload, Stage.summary,
         Stage.cleanup]
    ∧ (mainRun allOkEnv [] 0).exitCode = 0
    ∧ (mainRun allOkEnv [] 0).summaryPrinted = true
    ∧ (mainRun allOkEnv [] 0).cleanupSucceeded = true :=
  C2_success_order allOkEnv [] 0 rfl rfl rfl rfl rfl rfl

/-- Claim C3, refuted: with every stage through upload and the summary
succeeding and only the deletion of the local archive failing, the run
does not terminate as a success; handle_errors converts the cleanup
exception into click.Abort and the process exits with a nonzero status. -/
theorem C3_counterexample : (mainRun cleanupFailEnv [] 0).exitCode ≠ 0 := by
  decide

/-- Claim C3 (amended): if every stage through upload succeeded and only
the deletion of the local archive fails, the failure is reported with the
prefixed error line, but the run is aborted with exit status 1 like any
other failure rather than terminating as a success; the summary has
already been printed, since print_summary runs before clear_tmp_files. -/
theorem C3_cleanup_failure (env : Env) (pages : List (Option (List RemoteObject)))
    (nowUtc : Int) (m : String) (hp : env.profileValid = true)
    (h1 : env.pruneFails = none) (h2 : env.buildFails = none)
    (h3 : env.uploadFails = none) (h4 : env.summaryFails = none)
    (h5 : env.cleanupFails = some m) :
    (mainRun env pages nowUtc).stdoutErrorLine = some (ERROR_MARK ++ m)
    ∧ (mainRun env pages nowUtc).exitCode = 1
    ∧ (mainRun env pages nowUtc).summaryPrinted = true
    ∧ (mainRun env pages nowUtc).uploadAttempted = true
    ∧ (mainRun env pages nowUtc).cleanupSucceeded = false := by
  have hf : firstFail env = some (Stage.cleanup, m) := by
    unfold firstFail
    rw [hp, h1, h2, h3, h4, h5]
    rfl
  rw [mainRun_firstFail_some env pages nowUtc Stage.cleanup m hf]
  exact ⟨rfl, rfl, rfl, rfl, rfl⟩

theorem C3_cleanup_failure_witness :
    (mainRun cleanupFailEnv [] 0).stdoutErrorLine
      = some (ERROR_MARK ++ "No such file or directory")
    ∧ (mainRun cleanupFailEnv [] 0).exitCode = 1
    ∧ (mainRun cleanupFailEnv [] 0).summaryPrinted = true
    ∧ (mainRun cleanupFailEnv [] 0).uploadAttempted = true
    ∧ (mainRun cleanupFailEnv [] 0).cleanupSucceeded = false :=
  C3_cleanup_failure cleanupFailEnv [] 0 "No such file or directory"
    rfl rfl rfl rfl rfl rfl

/-- Claim C4: any error raised in any stage aborts the run at that stage
with exit status 1 and no retries: the executed stages are exactly the
program-order prefix ending at the failing stage, no stage runs twice,
every later stage (CLEANUP_LOCAL included) is skipped, and a failure
during upload or after it, during the summary, leaves the successfully
built local archive undeleted on disk. -/
theorem C4_fail_fast (env : Env) (pages : List (Option (List RemoteObject)))
    (nowUtc : Int) (s : Stage) (m : String) (h : firstFail env = some (s, m)) :
    (mainRun env pages nowUtc).executed = stagesUpTo s
    ∧ (mainRun env pages nowUtc).exitCode = 1
    ∧ (mainRun env pages nowUtc).stdoutErrorLine = some (ERROR_MARK ++ m)
    ∧ List.Nodup (mainRun env pages nowUtc).executed
    ∧ (s ≠ Stage.cleanup → Stage.cleanup ∉ (mainRun env pages nowUtc).executed)
    ∧ ((s = Stage.upload ∨ s = Stage.summary) →
        (mainRun env pages nowUtc).buildCompleted = true
        ∧ (mainRun env pages nowUtc).cleanupSucceeded = false) := by
  rw [mainRun_firstFail_some env pages nowUtc s m h]
  refine ⟨rfl, rfl, rfl, ?_, ?_, ?_⟩
  · show List.Nodup (stagesUpTo s)
    cases s <;> decide
  · intro hs
    show Stage.cleanup ∉ stagesUpTo s
    cases s <;> first | decide | exact absurd rfl hs
  · intro hs
    rcases hs with hs | hs <;> subst hs <;> exact ⟨rfl, rfl⟩

theorem C4_fail_fast_witness :
    (mainRun uploadFailEnv [] 0).executed
      = [Stage.initSession, Stage.prune, Stage.build, Stage.upload]
    ∧ (mainRun uploadFailEnv [] 0).exitCode = 1
    ∧ Stage.cleanup ∉ (mainRun uploadFailEnv [] 0).executed
    ∧ (mainRun uploadFailEnv [] 0).buildCompleted = true
    ∧ (mainRun uploadFailEnv [] 0).cleanupSucceeded = false := by
  have h := C4_fail_fast uploadFailEnv [] 0 Stage.upload "Connection reset" rfl
  exact ⟨h.1, h.2.1, h.2.2.2.2.1 (by decide),
    (h.2.2.2.2.2 (Or.inl rfl)).1, (h.2.2.2.2.2 (Or.inl rfl)).2⟩

/-- Claim C8: when the given profile does not resolve, the run aborts
during session initialization with exit status 1 and an error message
naming the missing profile, and no store call is made at all: no listing,
no delete and no upload is attempted. -/
theorem C8_invalid_profile (env : Env) (pages : List (Option (List RemoteObject)))
    (nowUtc : Int) (h : env.profileValid = false) :
    (mainRun env pages nowUtc).executed = [Stage.initSession]
    ∧ (mainRun env pages nowUtc).exitCode = 1
    ∧ (mainRun env pages nowUtc).stdoutErrorLine
        = some (ERROR_MARK ++ profileNotFoundMsg env.profile)
    ∧ (mainRun env pages nowUtc).listAttempted = false
    ∧ (mainRun env pages nowUtc).deleteAttempted = false
    ∧ (mainRun env pages nowUtc).uploadAttempted = false := by
  unfold mainRun
  rw [h]
  exact ⟨rfl, rfl, rfl, rfl, rfl, rfl⟩

theorem C8_invalid_profile_witness :
    (mainRun badProfileEnv [] 0).executed = [Stage.initSession]
    ∧ (mainRun badProfileEnv [] 0).exitCode = 1
    ∧ (mainRun badProfileEnv [] 0).stdoutErrorLine
        = some (ERROR_MARK ++ profileNotFoundMsg "demo")
    ∧ (mainRun badProfileEnv [] 0).listAttempted = false
    ∧ (mainRun badProfileEnv [] 0).deleteAttempted = false
    ∧ (mainRun badProfileEnv [] 0).uploadAttempted = false :=
  C8_invalid_profile badProfileEnv [] 0 rfl

/-- Claim C9, stream placement, refuted: on a failing run the distinctly
prefixed error line is printed to standard output, because click.secho
defaults its err parameter to False; the error stream carries only the
"Aborted!" line that click prints for click.Abort, not the prefixed
message. -/
theorem C9_counterexample :
    (mainRun badProfileEnv [] 0).stdoutErrorLine
      = some (ERROR_MARK ++ profileNotFoundMsg "demo")
    ∧ (mainRun badProfileEnv [] 0).stderrLines = ["Aborted!"]
    ∧ (ERROR_MARK ++ profileNotFoundMsg "demo") ∉ (mainRun badProfileEnv [] 0).stderrLines := by
  refine ⟨rfl, rfl, ?_⟩
  decide

/-- Claim C9 (amended): every handled failure terminates the process with
exit status 1, printing one distinctly prefixed error line to standard
output, click.secho's default stream, while the error stream receives
only click's "Aborted!" line; the prefixed line is a single line whenever
the underlying exception message is.  A fully successful run exits with
status 0 after printing the summary, with nothing on the error stream. -/
theorem C9_exit_behavior (env : Env) (pages : List (Option (List RemoteObject)))
    (nowUtc : Int) :
    (∀ s mg, firstFail env = some (s, mg) →
        (mainRun env pages nowUtc).exitCode = 1
        ∧ (mainRun env pages nowUtc).stdoutErrorLine = some (ERROR_MARK ++ mg)
        ∧ (mainRun env pages nowUtc).stderrLines = ["Aborted!"]
        ∧ ('\n' ∉ mg.data → '\n' ∉ (ERROR_MARK ++ mg).data))
    ∧ (firstFail env = none →
        (mainRun env pages nowUtc).exitCode = 0
        ∧ (mainRun env pages nowUtc).stdoutErrorLine = none
        ∧ (mainRun env pages nowUtc).stderrLines = []
        ∧ (mainRun env pages nowUtc).summaryPrinted = true) := by
  constructor
  · intro s mg h
    rw [mainRun_firstFail_some env pages nowUtc s mg h]
    refine ⟨rfl, rfl, rfl, ?_⟩
    intro hnl hmem
    rw [String.data_append] at hmem
    rcases List.mem_append.mp hmem with hl | hr
    · exact absurd hl (by decide)
    · exact hnl hr
  · intro h
    rw [mainRun_firstFail_none env pages nowUtc h]
    exact ⟨rfl, rfl, rfl, rfl⟩

theorem C9_exit_behavior_witness :
    ((mainRun badProfileEnv [] 0).exitCode = 1
      ∧ (mainRun badProfileEnv [] 0).stdoutErrorLine
          = some (ERROR_MARK ++ profileNotFoundMsg "demo")
      ∧ (mainRun badProfileEnv [] 0).stderrLines = ["Aborted!"])
    ∧ ((mainRun allOkEnv [] 0).exitCode = 0
      ∧ (mainRun allOkEnv [] 0).summaryPrinted = true) := by
  have h1 := (C9_exit_behavior badProfileEnv [] 0).1 Stage.initSession
    (profileNotFoundMsg "demo") rfl
  have h2 := (C9_exit_behavior allOkEnv [] 0).2 rfl
  exact ⟨⟨h1.1, h1.2.1, h1.2.2.1⟩, h2.1, h2.2.2.2⟩

theorem sharedLeadLen_append (a b : List String) : sharedLeadLen (a ++ b) a = a.length := by
  induction a with
  | nil => cases b <;> rfl
  | cons x xs ih => simp [sharedLeadLen, ih]

theorem relpath_under (folder rel : List String) :
    relpathComponents (folder ++ rel) folder = rel := by
  unfold relpathComponents
  rw [sharedLeadLen_append]
  simp [Nat.sub_self, List.drop_left]

mutual
theorem walkTree_comps : ∀ (t : FSTree) (pre p : List String) (n : String),
    namesNonempty t = true → (∀ c ∈ pre, c ≠ "") →
    (p, n) ∈ walkTree pre t → (∀ c ∈ p, c ≠ "") ∧ n ≠ ""
  | FSTree.file m, pre, p, n, ht, hpre, hmem => by
      simp only [walkTree, List.mem_singleton, Prod.mk.injEq] at hmem
      obtain ⟨hp, hn⟩ := hmem
      subst hp; subst hn
      simp only [namesNonempty, decide_eq_true_eq] at ht
      exact ⟨hpre, ht⟩
  | FSTree.dir m es, pre, p, n, ht, hpre, hmem => by
      simp only [walkTree] at hmem
      simp only [namesNonempty, Bool.and_eq_true, decide_eq_true_eq] at ht
      refine walkForest_comps es (pre ++ [m]) p n ht.2 ?_ hmem
      intro c hc
      rcases List.mem_append.mp hc with h | h
      · exact hpre c h
      · rw [List.mem_singleton] at h
        subst h
        exact ht.1

theorem walkForest_comps : ∀ (ts : List FSTree) (pre p : List String) (n : String),
    namesNonemptyList ts = true → (∀ c ∈ pre, c ≠ "") →
    (p, n) ∈ walkForest pre ts → (∀ c ∈ p, c ≠ "") ∧ n ≠ ""
  | [], _, _, _, _, _, hmem => by simp [walkForest] at hmem
  | t :: rest, pre, p, n, ht, hpre, hmem => by
      simp only [walkForest, List.mem_append] at hmem
      simp only [namesNonemptyList, Bool.and_eq_true] at ht
      rcases hmem with h | h
      · exact walkTree_comps t pre p n ht.1 hpre h
      · exact walkForest_comps rest pre p n ht.2 hpre h
end

/-- Claim C6: for every source directory and every file that os.walk
enumerates under it, the entry name written into the archive is exactly
that file's path relative to the source directory; consequently no entry
encodes an absolute path (assuming, as the filesystem guarantees, that
no name in the tree is the empty string, no entry starts with the root
marker), and no entry wraps the contents in a folder named after the
source directory, since the relative path is used unchanged. -/
theorem C6_relative_entries (folder : List String) (entries : List FSTree)
    (hn : namesNonemptyList entries = true) :
    create_backup_archive_entries folder entries
      = (walkForest [] entries).map (fun rf => rf.1 ++ [rf.2])
    ∧ ∀ e ∈ create_backup_archive_entries folder entries,
        e ≠ [] ∧ ∀ c ∈ e, c ≠ "" := by
  have heq : create_backup_archive_entries folder entries
      = (walkForest [] entries).map (fun rf => rf.1 ++ [rf.2]) := by
    unfold create_backup_archive_entries
    apply List.map_congr_left
    intro rf _
    rw [List.append_assoc]
    exact relpath_under folder (rf.1 ++ [rf.2])
  refine ⟨heq, ?_⟩
  intro e he
  rw [heq] at he
  rcases List.mem_map.mp he with ⟨rf, hrf, hef⟩
  rcases rf with ⟨p, nm⟩
  simp only at hef
  subst hef
  have h := walkForest_comps entries [] p nm hn (by intro c hc; cases hc) hrf
  refine ⟨by simp, ?_⟩
  intro c hc
  rcases List.mem_append.mp hc with h1 | h1
  · exact h.1 c h1
  · rw [List.mem_singleton] at h1
    subst h1
    exact h.2

theorem C6_relative_entries_witness :
    create_backup_archive_entries demoFolder demoEntries
      = (walkForest [] demoEntries).map (fun rf => rf.1 ++ [rf.2])
    ∧ ∀ e ∈ create_backup_archive_entries demoFolder demoEntries,
        e ≠ [] ∧ ∀ c ∈ e, c ≠ "" :=
  C6_relative_entries demoFolder demoEntries (by decide)

theorem digitChar_ne_slash (d : Nat) : digitChar d ≠ '/' := by
  unfold digitChar
  split <;> decide

theorem natDigitsAux_ne_slash (fuel : Nat) : ∀ (n : Nat), ∀ c ∈ natDigitsAux fuel n, c ≠ '/' := by
  induction fuel with
  | zero => intro n c hc; cases hc
  | succ fuel ih =>
    intro n c hc
    unfold natDigitsAux at hc
    split at hc
    · rw [List.mem_singleton] at hc
      subst hc
      exact digitChar_ne_slash n
    · rcases List.mem_append.mp hc with h | h
      · exact ih (n / 10) c h
      · rw [List.mem_singleton] at h
        subst h
        exact digitChar_ne_slash (n % 10)

theorem natDigits_ne_slash (n : Nat) : ∀ c ∈ natDigits n, c ≠ '/' :=
  natDigitsAux_ne_slash (n + 1) n

theorem monthName_ne_slash (i : Nat) : ∀ c ∈ (List.getD monthNames i "").data, c ≠ '/' := by
  match i with
  | 0 => decide
  | 1 => decide
  | 2 => decide
  | 3 => decide
  | 4 => decide
  | 5 => decide
  | 6 => decide
  | 7 => decide
  | 8 => decide
  | 9 => decide
  | 10 => decide
  | 11 => decide
  | k + 12 =>
    intro c hc
    have hlen : monthNames.length = 12 := rfl
    have hd : List.getD monthNames (k + 12) "" = "" :=
      List.getD_eq_default monthNames "" (by omega)
    rw [hd] at hc
    cases hc

/-- Claim C7: the build stage writes exactly one file, the container of
the single tarfile.open call: its name is derived from the run's current
month and year as MonthName-Year.tar, a bare filename with no path
separator, so the file lands in the current working directory; the mode
string handed to tarfile.open is "w", which writes an uncompressed tar
container, despite the docstring saying compressed, and truncates any
same-named file already present. -/
theorem C7_archive_file (m y : Nat) (folder : List String) (entries : List FSTree)
    (h1 : 1 ≤ m) (h2 : m ≤ 12) :
    filesWritten (create_backup_archive m y folder entries)
      = [List.getD monthNames (m - 1) "" ++ "-" ++ natDecimal y ++ ".tar"]
    ∧ tarfileWriteMode (create_backup_archive m y folder entries).tarMode
        = some { compressed := false, truncates := true }
    ∧ List.getD monthNames (m - 1) "" ≠ ""
    ∧ ∀ c ∈ (create_backup_archive m y folder entries).fileName.data, c ≠ '/' := by
  refine ⟨rfl, rfl, ?_, ?_⟩
  · interval_cases m <;> decide
  · intro c hc
    have hdata : (create_backup_archive m y folder entries).fileName.data
        = (List.getD monthNames (m - 1) "").data ++ "-".data
          ++ natDigits y ++ ".tar".data := by
      show (((List.getD monthNames (m - 1) "" ++ "-") ++ natDecimal y) ++ ".tar").data = _
      rw [String.data_append, String.data_append, String.data_append]
      rfl
    rw [hdata] at hc
    rcases List.mem_append.mp hc with h | h
    · rcases List.mem_append.mp h with h' | h'
      · rcases List.mem_append.mp h' with h'' | h''
        · exact monthName_ne_slash (m - 1) c h''
        · exact (by decide : ∀ x ∈ "-".data, x ≠ '/') c h''
      · exact natDigits_ne_slash y c h'
    · exact (by decide : ∀ x ∈ ".tar".data, x ≠ '/') c h

theorem C7_archive_file_witness :
    filesWritten (create_backup_archive 3 2024 demoFolder demoEntries)
      = ["March-2024.tar"]
    ∧ tarfileWriteMode (create_backup_archive 3 2024 demoFolder demoEntries).tarMode
        = some { compressed := false, truncates := true }
    ∧ ∀ c ∈ (create_backup_archive 3 2024 demoFolder demoEntries).fileName.data, c ≠ '/' := by
  have h := C7_archive_file 3 2024 demoFolder demoEntries (by norm_num) (by norm_num)
  refine ⟨?_, h.2.1, h.2.2.2⟩
  rw [h.1]
  rfl

/-- Claim C10: within one run the archive name's month and year are taken
from the timezone-naive local clock of line 81, while the retention
cutoff subtracts 90 days from the UTC clock of line 56; at an instant
where the two clocks disagree on the month, here 2024-02-29T23:30Z in a
UTC+1 zone, the local clock already reads March 1st, so the archive is
named March-2024.tar while the cutoff is computed from a February UTC
instant. -/
theorem C10_clock_mismatch :
    ∃ c : Clock,
      runArchiveMonth c ≠ monthOfSeconds c.utcSeconds
      ∧ strftimeBY (runArchiveMonth c) (yearOfSeconds (localSeconds c)).toNat ++ ".tar"
          = "March-2024.tar"
      ∧ monthOfSeconds c.utcSeconds = 2
      ∧ runCutoff c = c.utcSeconds - 90 * 86400 := by
  refine ⟨⟨1709249400, 3600⟩, ?_, ?_, ?_, ?_⟩
  · decide
  · rfl
  · rfl
  · rfl
